import Mathlib

/-!
Shallow embedding of `src/promptflow/promptflow/_core/otel_tracer.py`.

The file models the Python module faithfully:
* `PyVal` is the universe of Python values the attribute-coercion helper
  `OpenTelemetryTracer._generate_attribute_value` dispatches on (exact-type
  dispatch via `type(obj) in (...)`).
* external collaborators (`serialize` from
  `promptflow._utils.dataclass_serializer`, `json.dumps`, `str`, the OS file
  system, the OpenTelemetry SDK objects) are modelled as oracles/state,
  with a comment at each one.
* Python exceptions are modelled with `Except`: a function that can raise
  returns `Except PyErr α` (or `Except String α`), and a `try/except` block
  becomes a `match` on that result.
-/

namespace OtelTracer

/-- An arbitrary Python object that is neither a `str`/`int`/`float`/`bool`
nor a `list`/`tuple` (e.g. a dict or a dataclass).  The two oracle fields
record how the external collaborators behave on it:
`serialize_dump` is `some j` when `json.dumps(serialize(obj))` succeeds and
returns the JSON string `j`, and `none` when that compound call raises;
`str_form` is `str(obj)`, the human-readable form (total: Python's default
`object.__str__` never raises). -/
structure PyObj where
  serialize_dump : Option String
  str_form : String
deriving DecidableEq, Repr

/-- Python values as seen by `_generate_attribute_value`.  Exact runtime
type tags mirror the `type(obj) in (str, int, float, bool)` and
`type(obj) in (list, tuple)` checks.  Floats are carried opaquely (their
textual form) because the code never computes with them, only passes them
through. -/
inductive PyVal where
  | vstr (s : String)
  | vint (n : Int)
  | vfloat (f : String)
  | vbool (b : Bool)
  | vlist (xs : List PyVal)
  | vtuple (xs : List PyVal)
  | vobj (o : PyObj)

/-- The body of the `try:` block of `_generate_attribute_value`:
`obj = serialize(obj); return json.dumps(obj)` — a compound call into the
external collaborators that may raise (modelled by the `serialize_dump`
oracle of the object). -/
def serializeAndDump (o : PyObj) : Except String String :=
  match o.serialize_dump with
  | some j => Except.ok j
  | none => Except.error "serialization failed"

mutual

/-- `OpenTelemetryTracer._generate_attribute_value` (otel_tracer.py lines 99-112).
Dispatch order as in the source: exact primitive types pass through,
`list`/`tuple` recurse elementwise into a Python list, any other value
goes through `try: serialize + json.dumps / except Exception: str(obj)`.
The result is in `Except` because, in Python, any statement of the body
could in principle raise; the theorems show no error value ever escapes. -/
def generate_attribute_value : PyVal → Except String PyVal
  | PyVal.vstr s => Except.ok (PyVal.vstr s)
  | PyVal.vint n => Except.ok (PyVal.vint n)
  | PyVal.vfloat f => Except.ok (PyVal.vfloat f)
  | PyVal.vbool b => Except.ok (PyVal.vbool b)
  | PyVal.vlist xs =>
      match gavList xs with
      | Except.ok ys => Except.ok (PyVal.vlist ys)
      | Except.error e => Except.error e
  | PyVal.vtuple xs =>
      match gavList xs with
      | Except.ok ys => Except.ok (PyVal.vlist ys)
      | Except.error e => Except.error e
  | PyVal.vobj o =>
      match serializeAndDump o with
      | Except.ok j => Except.ok (PyVal.vstr j)
      | Except.error _ => Except.ok (PyVal.vstr o.str_form)

/-- The list comprehension
`[self._generate_attribute_value(item) for item in obj]`: elementwise, in
order; an exception in an element would abort the whole comprehension. -/
def gavList : List PyVal → Except String (List PyVal)
  | [] => Except.ok []
  | x :: xs =>
      match generate_attribute_value x with
      | Except.error e => Except.error e
      | Except.ok y =>
          match gavList xs with
          | Except.error e => Except.error e
          | Except.ok ys => Except.ok (y :: ys)

end

/-- Python exception classes the modelled OS and file operations raise. -/
inductive PyErr where
  | fileNotFoundError
  | ioError
deriving DecidableEq, Repr

/-- The file-system state the exporter interacts with: file contents by
path (`none` when the file does not exist), which directory paths exist,
and an oracle for whether an append-open-and-write to a path can complete
(`False` models the OS raising `OSError` from `open`/`write`). -/
structure FileSys where
  contents : String → Option String
  dirs : String → Bool
  writable : String → Bool

/-- `os.path.dirname` (posixpath): the head of the path up to the last
slash, with trailing slashes stripped unless the head is all slashes;
the empty string when the name has no directory component. -/
def os_path_dirname (p : String) : String :=
  let cs := p.toList
  let head := (cs.reverse.dropWhile (fun c => c ≠ '/')).reverse
  if head.isEmpty || head.all (fun c => c = '/') then String.mk head
  else String.mk ((head.reverse.dropWhile (fun c => c = '/')).reverse)

/-- `os.path.exists`: stat succeeds for the path, as a directory or as a
file; `os.path.exists("")` is `False` in Python (stat of the empty path
always fails). -/
def os_path_exists (fs : FileSys) (p : String) : Bool :=
  (p != "") && (fs.dirs p || (fs.contents p).isSome)

/-- `os.makedirs`: raises `FileNotFoundError` on the empty path, otherwise
creates the directory.  (Intermediate parents are also created by the real
call; the model records the leaf, which is all the code ever queries.) -/
def os_makedirs (fs : FileSys) (p : String) : Except PyErr FileSys :=
  if p = "" then Except.error PyErr.fileNotFoundError
  else Except.ok { fs with dirs := fun q => if q = p then true else fs.dirs q }

/-- An ended OpenTelemetry span as the file exporter consumes it: the SDK
span object is external, so only the result of its `to_json(indent=None)`
serialization matters here, carried opaquely. -/
structure Span where
  to_json : String
deriving DecidableEq, Repr

/-- `SpanExportResult` values the exporter can return (the SDK enum also
has a timeout member; this module only ever mentions SUCCESS, and FAILURE
is what the spec demands on error). -/
inductive SpanExportResult where
  | SUCCESS
  | FAILURE
deriving DecidableEq, Repr

/-- What the export loop writes: `span.to_json(indent=None) + "\n"` for
each span, in batch order. -/
def spanRecords : List Span → String
  | [] => ""
  | s :: rest => s.to_json ++ "\n" ++ spanRecords rest

/-- The combined effect on the file system of
`with open(f, "a") as file: <writes>; <close>`: the file is created when
absent, the written text is appended to its existing content, and every
other path is untouched. -/
def appendToFile (fs : FileSys) (f : String) (text : String) : FileSys :=
  let newContents : String → Option String := fun p =>
    if p = f then some (((fs.contents f).getD "") ++ text) else fs.contents p
  { fs with contents := newContents }

/-- The exporter object: its only state is the configured file name —
no file handle is retained between calls. -/
structure FileSpanExporter where
  file_name : String
deriving DecidableEq, Repr

/-- `FileSpanExporter.__init__` (otel_tracer.py lines 22-26): stores the
file name, then `directory = os.path.dirname(file_name)`;
`if not os.path.exists(directory): os.makedirs(directory)`.  An exception
from `os.makedirs` propagates out of the constructor. -/
def FileSpanExporter.init (fs : FileSys) (file_name : String) :
    Except PyErr (FileSys × FileSpanExporter) :=
  let directory := os_path_dirname file_name
  if os_path_exists fs directory then Except.ok (fs, ⟨file_name⟩)
  else
    match os_makedirs fs directory with
    | Except.ok fs2 => Except.ok (fs2, ⟨file_name⟩)
    | Except.error e => Except.error e

/-- `FileSpanExporter.export` (otel_tracer.py lines 28-32):
`with open(self.file_name, "a") as file` opens in append mode (creating
the file when absent) and closes before returning; the loop writes one
`span.to_json(indent=None) + "\n"` record per span; on completion the
method returns `SpanExportResult.SUCCESS`.  There is no try/except: when
the open/write cannot complete (the `writable` oracle), Python raises
`OSError` out of the method, modelled as `Except.error`. -/
def FileSpanExporter.export (e : FileSpanExporter) (fs : FileSys) (spans : List Span) :
    Except PyErr (FileSys × SpanExportResult) :=
  if fs.writable e.file_name then
    Except.ok (appendToFile fs e.file_name (spanRecords spans), SpanExportResult.SUCCESS)
  else Except.error PyErr.ioError

/-- A reference to a SpanExporter instance handed to the registry: the
console exporter, a FileSpanExporter, or any other implementation
(opaque tag). -/
inductive ExporterRef where
  | console
  | file (e : FileSpanExporter)
  | other (tag : Nat)
deriving DecidableEq, Repr

/-- The SDK `BatchSpanProcessor` is external to this module; the code only
constructs them (`BatchSpanProcessor(exporter)`), stores them, registers
them with the provider, and calls `shutdown()`.  A processor is therefore
its identity (fresh at construction) plus the exporter it wraps. -/
structure BatchSpanProcessor where
  procId : Nat
  exporter : ExporterRef
deriving DecidableEq, Repr

/-- The OTel span `trace.get_current_span()` returns, reduced to what
`set_attribute` touches: its attribute map (string keys, last write wins). -/
structure SpanRec where
  attrs : List (String × PyVal)

/-- The process-wide state the `OpenTelemetryTracer` class methods read
and write: the class attribute `_instance` (identity of the singleton
instance when created), how many instances were ever constructed, the
singleton's `_span_processors` list, the processors registered on the
global tracer provider, a counter supplying fresh processor identities,
the order in which `shutdown()` has been invoked on processors, and the
calling context's current span. -/
structure GlobalState where
  instId : Option Nat
  created : Nat
  instProcessors : List BatchSpanProcessor
  providerProcessors : List BatchSpanProcessor
  nextProcId : Nat
  shutdownLog : List Nat
  currentSpan : SpanRec

/-- `OpenTelemetryTracer.get_instance` (lines 40-50): double-checked lazy
creation.  `if not cls._instance` is Python truthiness — `None` is falsy
and an instance object is always truthy — so the test is exactly
`instId = none`.  In this sequential embedding the lock makes the
check-and-create step one atomic transition.  On creation the class
builds a fresh `TracerProvider` (hence an empty provider processor list),
installs it globally, obtains a tracer, and gives the instance an empty
`_span_processors` list. -/
def get_instance (g : GlobalState) : GlobalState × Nat :=
  match g.instId with
  | some i => (g, i)
  | none =>
      ({ g with instId := some g.created, created := g.created + 1,
                instProcessors := [], providerProcessors := [] }, g.created)

/-- `OpenTelemetryTracer.__new__` (lines 52-53): `return cls.get_instance()`,
so constructing via the class is the same operation as `get_instance`. -/
def pynew (g : GlobalState) : GlobalState × Nat := get_instance g

/-- `add_span_exporter` (lines 64-68): `BatchSpanProcessor(exporter)`
creates a new processor wrapping the exporter (fresh identity), the
singleton's `_span_processors` list gets it appended, and the global
tracer provider registers the same processor. -/
def add_span_exporter (g : GlobalState) (exporter : ExporterRef) : GlobalState :=
  let p : BatchSpanProcessor := ⟨g.nextProcId, exporter⟩
  let gi := get_instance g
  { gi.1 with
      instProcessors := gi.1.instProcessors ++ [p],
      providerProcessors := gi.1.providerProcessors ++ [p],
      nextProcId := gi.1.nextProcId + 1 }

/-- `add_console_span_exporter` (lines 56-58). -/
def add_console_span_exporter (g : GlobalState) : GlobalState :=
  add_span_exporter g ExporterRef.console

/-- `add_file_span_exporter` (lines 60-62): constructs the
FileSpanExporter — whose `__init__` may raise — and on success registers
it; an exception from the constructor propagates to the caller. -/
def add_file_span_exporter (g : GlobalState) (fs : FileSys) (file_name : String) :
    Except PyErr (GlobalState × FileSys) :=
  match FileSpanExporter.init fs file_name with
  | Except.error err => Except.error err
  | Except.ok (fs2, e) => Except.ok (add_span_exporter g (ExporterRef.file e), fs2)

/-- `close` (lines 94-97): `for span_processor in self._span_processors:
span_processor.shutdown()`.  The external `shutdown()` invocations are
recorded in call order; the list itself is not modified. -/
def close (g : GlobalState) : GlobalState :=
  let gi := get_instance g
  { gi.1 with
      shutdownLog := gi.1.shutdownLog
        ++ gi.1.instProcessors.map BatchSpanProcessor.procId }

/-- The external OTel `Span.set_attribute` on a live (recording) span:
stores the value under the key, last write wins. -/
def setAttrAssoc (attrs : List (String × PyVal)) (k : String) (v : PyVal) :
    List (String × PyVal) :=
  match attrs with
  | [] => [(k, v)]
  | (k2, v2) :: rest =>
      if k2 = k then (k, v) :: rest else (k2, v2) :: setAttrAssoc rest k v

/-- Attribute lookup on the span's map (the binding for the key, if any). -/
def lookupAttr : List (String × PyVal) → String → Option PyVal
  | [], _ => none
  | (k2, v) :: rest, k => if k2 = k then some v else lookupAttr rest k

/-- `set_attribute` (lines 89-92): first coerces the value with
`_generate_attribute_value`, then stores the coerced result under the key
on the current span.  An exception from the coercion would propagate to
the caller (the coercion theorems show none can); the two `get_instance`
calls mirror the two source lines. -/
def set_attribute (g : GlobalState) (key : String) (value : PyVal) :
    Except String GlobalState :=
  let g1 := (get_instance g).1
  match generate_attribute_value value with
  | Except.error e => Except.error e
  | Except.ok av =>
      let g2 := (get_instance g1).1
      Except.ok { g2 with currentSpan := ⟨setAttrAssoc g2.currentSpan.attrs key av⟩ }

/-- A fresh process state: no instance yet, nothing registered. -/
def g0 : GlobalState :=
  { instId := none, created := 0, instProcessors := [], providerProcessors := [],
    nextProcId := 0, shutdownLog := [], currentSpan := ⟨[]⟩ }

/-- A process state whose singleton instance already exists. -/
def gI : GlobalState :=
  { g0 with instId := some 0, created := 1 }

/-- A file system on which no write can complete (e.g. the disk is full
or the path cannot be opened). -/
def fsUnwritable : FileSys :=
  { contents := fun _ => none, dirs := fun _ => true, writable := fun _ => false }

/-- A writable file system with one existing log file and its directory. -/
def fsHome : FileSys :=
  { contents := fun p => if p = "logs/trace.jsonl" then some "old-record\n" else none,
    dirs := fun p => p == "logs", writable := fun _ => true }

/-- An empty, writable file system with no directories yet. -/
def fsEmpty : FileSys :=
  { contents := fun _ => none, dirs := fun _ => false, writable := fun _ => true }

end OtelTracer

namespace OtelTracer

mutual

/-- Helper: the coercion function never returns an exception, for any input. -/
theorem gav_isOk : ∀ v : PyVal, ∃ r, generate_attribute_value v = Except.ok r
  | PyVal.vstr s => ⟨PyVal.vstr s, by simp [generate_attribute_value]⟩
  | PyVal.vint n => ⟨PyVal.vint n, by simp [generate_attribute_value]⟩
  | PyVal.vfloat f => ⟨PyVal.vfloat f, by simp [generate_attribute_value]⟩
  | PyVal.vbool b => ⟨PyVal.vbool b, by simp [generate_attribute_value]⟩
  | PyVal.vlist xs => by
      obtain ⟨ys, hys⟩ := gavList_isOk xs
      exact ⟨PyVal.vlist ys, by simp [generate_attribute_value, hys]⟩
  | PyVal.vtuple xs => by
      obtain ⟨ys, hys⟩ := gavList_isOk xs
      exact ⟨PyVal.vlist ys, by simp [generate_attribute_value, hys]⟩
  | PyVal.vobj o => by
      cases h : serializeAndDump o with
      | ok j => exact ⟨PyVal.vstr j, by simp [generate_attribute_value, h]⟩
      | error e => exact ⟨PyVal.vstr o.str_form, by simp [generate_attribute_value, h]⟩

/-- Helper: the elementwise comprehension never returns an exception. -/
theorem gavList_isOk : ∀ xs : List PyVal, ∃ ys, gavList xs = Except.ok ys
  | [] => ⟨[], by simp [gavList]⟩
  | x :: xs => by
      obtain ⟨y, hy⟩ := gav_isOk x
      obtain ⟨ys, hys⟩ := gavList_isOk xs
      exact ⟨y :: ys, by simp [gavList, hy, hys]⟩

end

/-- Helper: elementwise coercion preserves the length of the list. -/
theorem gavList_length : ∀ xs ys : List PyVal, gavList xs = Except.ok ys →
    ys.length = xs.length := by
  intro xs
  induction xs with
  | nil => intro ys h; simp [gavList] at h; simp [h.symm]
  | cons x xs ih =>
      intro ys h
      rw [gavList] at h
      cases hy : generate_attribute_value x with
      | error e => rw [hy] at h; exact absurd h (by simp)
      | ok y =>
          rw [hy] at h
          cases hys : gavList xs with
          | error e => rw [hys] at h; exact absurd h (by simp)
          | ok ys2 =>
              rw [hys] at h
              cases h
              simp [ih ys2 hys]

/-- Helper: the i-th element of the coerced list is the coercion of the
i-th input element. -/
theorem gavList_get? : ∀ xs ys : List PyVal, gavList xs = Except.ok ys →
    ∀ i, (ys.get? i).map Except.ok = (xs.get? i).map generate_attribute_value := by
  intro xs
  induction xs with
  | nil =>
      intro ys h i
      simp [gavList] at h
      subst h
      simp
  | cons x xs ih =>
      intro ys h i
      rw [gavList] at h
      cases hy : generate_attribute_value x with
      | error e => rw [hy] at h; exact absurd h (by simp)
      | ok y =>
          rw [hy] at h
          cases hys : gavList xs with
          | error e => rw [hys] at h; exact absurd h (by simp)
          | ok ys2 =>
              rw [hys] at h
              cases h
              cases i with
              | zero => simp [hy]
              | succ i => simpa using ih ys2 hys i

/-- C2: the attribute coercion function returns every native
string/int/float/bool unchanged; on a list or tuple it returns a list of
the same length whose i-th element is the coercion of the i-th input
element, order preserved; and coercing the list `[1, "x", True]` returns
it unchanged. -/
theorem coercion_primitives_and_lists :
    (∀ s, generate_attribute_value (PyVal.vstr s) = Except.ok (PyVal.vstr s)) ∧
    (∀ n, generate_attribute_value (PyVal.vint n) = Except.ok (PyVal.vint n)) ∧
    (∀ f, generate_attribute_value (PyVal.vfloat f) = Except.ok (PyVal.vfloat f)) ∧
    (∀ b, generate_attribute_value (PyVal.vbool b) = Except.ok (PyVal.vbool b)) ∧
    (∀ xs : List PyVal, ∃ ys : List PyVal,
      generate_attribute_value (PyVal.vlist xs) = Except.ok (PyVal.vlist ys) ∧
      generate_attribute_value (PyVal.vtuple xs) = Except.ok (PyVal.vlist ys) ∧
      ys.length = xs.length ∧
      ∀ i, (ys.get? i).map Except.ok = (xs.get? i).map generate_attribute_value) ∧
    generate_attribute_value (PyVal.vlist [PyVal.vint 1, PyVal.vstr "x", PyVal.vbool true])
      = Except.ok (PyVal.vlist [PyVal.vint 1, PyVal.vstr "x", PyVal.vbool true]) := by
  refine ⟨fun s => by simp [generate_attribute_value],
          fun n => by simp [generate_attribute_value],
          fun f => by simp [generate_attribute_value],
          fun b => by simp [generate_attribute_value],
          fun xs => ?_,
          by simp [generate_attribute_value, gavList]⟩
  obtain ⟨ys, hys⟩ := gavList_isOk xs
  exact ⟨ys, by simp [generate_attribute_value, hys],
             by simp [generate_attribute_value, hys],
             gavList_length xs ys hys,
             gavList_get? xs ys hys⟩

/-- C3: for any value that is not a primitive or list/tuple, the coercion
function attempts `json.dumps(serialize(obj))`; if that fails for any
reason it returns `str(obj)`; and the coercion never propagates an
exception to its caller, for any input. -/
theorem coercion_fallback_never_raises :
    (∀ o : PyObj, o.serialize_dump = none →
      generate_attribute_value (PyVal.vobj o) = Except.ok (PyVal.vstr o.str_form)) ∧
    (∀ o : PyObj, generate_attribute_value (PyVal.vobj o)
      = Except.ok (PyVal.vstr (o.serialize_dump.getD o.str_form))) ∧
    (∀ v : PyVal, ∃ r, generate_attribute_value v = Except.ok r) := by
  refine ⟨fun o h => ?_, fun o => ?_, gav_isOk⟩
  · simp [generate_attribute_value, serializeAndDump, h]
  · cases h : o.serialize_dump with
    | none => simp [generate_attribute_value, serializeAndDump, h]
    | some j => simp [generate_attribute_value, serializeAndDump, h]

/-- Witness for C3 at a concrete failing-serialization object. -/
theorem coercion_fallback_never_raises_witness :
    generate_attribute_value (PyVal.vobj ⟨none, "<MyObj at 0x1>"⟩)
      = Except.ok (PyVal.vstr "<MyObj at 0x1>") :=
  coercion_fallback_never_raises.1 ⟨none, "<MyObj at 0x1>"⟩ rfl

/-- Helper: after a get_instance call the instance field holds exactly the
returned identity. -/
theorem get_instance_instId (g : GlobalState) :
    (get_instance g).1.instId = some (get_instance g).2 := by
  cases h : g.instId <;> simp [get_instance, h]

/-- Helper: a second get_instance call changes nothing and returns the
same identity. -/
theorem get_instance_idem (g : GlobalState) :
    get_instance ((get_instance g).1) = ((get_instance g).1, (get_instance g).2) := by
  cases h : g.instId <;> simp [get_instance, h]

/-- Helper: storing an attribute makes it the value found under its key. -/
theorem lookupAttr_setAttrAssoc (attrs : List (String × PyVal)) (k : String) (v : PyVal) :
    lookupAttr (setAttrAssoc attrs k v) k = some v := by
  induction attrs with
  | nil => simp [setAttrAssoc, lookupAttr]
  | cons kv rest ih =>
      obtain ⟨k2, v2⟩ := kv
      by_cases h : k2 = k
      · simp [setAttrAssoc, lookupAttr, h]
      · simp [setAttrAssoc, lookupAttr, h, ih]

/-- C1 counterexample: on a concrete file system where the write cannot
complete, export raises the error across the exporter boundary
(`Except.error`, the modelled `OSError`) — it does not return FAILURE; the
call produces no result value at all. -/
theorem export_write_failure_counterexample :
    FileSpanExporter.export ⟨"logs/trace.jsonl"⟩ fsUnwritable [⟨"record-a"⟩]
      = Except.error PyErr.ioError ∧
    (FileSpanExporter.export ⟨"logs/trace.jsonl"⟩ fsUnwritable [⟨"record-a"⟩]).isOk
      = false := by
  constructor <;> rfl

/-- C1 (amended): when the underlying write cannot complete, the file
exporter's export raises the I/O error across the exporter boundary to
its caller (the background flush loop) instead of returning FAILURE; and
for no input does export return FAILURE — SUCCESS is the only result
value it can produce. -/
theorem export_write_failure_raises (e : FileSpanExporter) (fs : FileSys)
    (spans : List Span) (h : fs.writable e.file_name = false) :
    FileSpanExporter.export e fs spans = Except.error PyErr.ioError ∧
    ∀ (fs2 : FileSys) (spans2 : List Span) (fs3 : FileSys) (r : SpanExportResult),
      FileSpanExporter.export e fs2 spans2 = Except.ok (fs3, r) →
      r = SpanExportResult.SUCCESS := by
  constructor
  · simp [FileSpanExporter.export, h]
  · intro fs2 spans2 fs3 r hr
    by_cases h2 : fs2.writable e.file_name
    · simp [FileSpanExporter.export, h2] at hr
      exact hr.2.symm
    · simp [FileSpanExporter.export, h2] at hr

/-- Witness for C1's amended theorem at a concrete unwritable state. -/
theorem export_write_failure_raises_witness :
    FileSpanExporter.export ⟨"logs/trace.jsonl"⟩ fsUnwritable []
      = Except.error PyErr.ioError :=
  (export_write_failure_raises ⟨"logs/trace.jsonl"⟩ fsUnwritable [] rfl).1

/-- C4: when the write can complete, one export call appends exactly one
newline-terminated JSON record per span to the configured file, in batch
order, leaves every other path unchanged, never truncates (the new
content is the old content with the records appended; an absent file
starts empty), and returns SUCCESS.  The exporter holds no file handle
between calls: the open-append-close happens entirely against the
file-system state passed to this one call. -/
theorem export_appends_records (e : FileSpanExporter) (fs : FileSys)
    (spans : List Span) (h : fs.writable e.file_name = true) :
    ∃ fs2 : FileSys,
      FileSpanExporter.export e fs spans = Except.ok (fs2, SpanExportResult.SUCCESS) ∧
      fs2.contents e.file_name
        = some (((fs.contents e.file_name).getD "") ++ spanRecords spans) ∧
      (∀ p, p ≠ e.file_name → fs2.contents p = fs.contents p) ∧
      fs2.dirs = fs.dirs ∧ fs2.writable = fs.writable := by
  refine ⟨appendToFile fs e.file_name (spanRecords spans), ?_, ?_, ?_, rfl, rfl⟩
  · simp [FileSpanExporter.export, h]
  · simp [appendToFile]
  · intro p hp
    simp [appendToFile, hp]

/-- Witness for C4 at a concrete writable state with existing content. -/
theorem export_appends_records_witness :
    ∃ fs2 : FileSys,
      FileSpanExporter.export ⟨"logs/trace.jsonl"⟩ fsHome [⟨"record-a"⟩, ⟨"record-b"⟩]
        = Except.ok (fs2, SpanExportResult.SUCCESS) ∧
      fs2.contents "logs/trace.jsonl"
        = some (((fsHome.contents "logs/trace.jsonl").getD "")
            ++ spanRecords [⟨"record-a"⟩, ⟨"record-b"⟩]) ∧
      (∀ p, p ≠ "logs/trace.jsonl" → fs2.contents p = fsHome.contents p) ∧
      fs2.dirs = fsHome.dirs ∧ fs2.writable = fsHome.writable :=
  export_appends_records ⟨"logs/trace.jsonl"⟩ fsHome [⟨"record-a"⟩, ⟨"record-b"⟩] rfl

/-- C5: at most one tracer instance: construction via the class is exactly
`get_instance`; when the instance exists, `get_instance` returns it with
the state unchanged (the identical instance, no new construction); when
it is absent, it is lazily created exactly then (construction count up by
one, identity recorded — sequential collapse of the double-checked lock);
and a repeated call returns the identical instance and state. -/
theorem singleton_get_instance :
    (∀ g, pynew g = get_instance g) ∧
    (∀ g i, g.instId = some i → get_instance g = (g, i)) ∧
    (∀ g, g.instId = none →
      (get_instance g).1.created = g.created + 1 ∧
      (get_instance g).1.instId = some (get_instance g).2) ∧
    (∀ g, get_instance ((get_instance g).1) = ((get_instance g).1, (get_instance g).2)) := by
  refine ⟨fun g => rfl, fun g i h => by simp [get_instance, h],
          fun g h => by simp [get_instance, h], get_instance_idem⟩

/-- Witness for C5 at concrete states. -/
theorem singleton_get_instance_witness :
    pynew gI = get_instance gI ∧
    get_instance gI = (gI, 0) ∧
    ((get_instance g0).1.created = g0.created + 1 ∧
      (get_instance g0).1.instId = some (get_instance g0).2) ∧
    get_instance ((get_instance g0).1) = ((get_instance g0).1, (get_instance g0).2) :=
  ⟨singleton_get_instance.1 gI,
   singleton_get_instance.2.1 gI 0 rfl,
   singleton_get_instance.2.2.1 g0 rfl,
   singleton_get_instance.2.2.2 g0⟩

/-- C6: every add_span_exporter call wraps the given exporter in a new
BatchSpanProcessor (fresh identity — under the freshness invariant it is
not already in the set), appends it to the registry's processor list,
growing that list by exactly one, and registers the same processor with
the tracer provider. -/
theorem add_span_exporter_registers (g : GlobalState) (e : ExporterRef)
    (hw : ∀ p ∈ (get_instance g).1.instProcessors, p.procId < g.nextProcId) :
    (add_span_exporter g e).instProcessors
      = (get_instance g).1.instProcessors ++ [⟨g.nextProcId, e⟩] ∧
    (add_span_exporter g e).instProcessors.length
      = (get_instance g).1.instProcessors.length + 1 ∧
    (add_span_exporter g e).providerProcessors
      = (get_instance g).1.providerProcessors ++ [⟨g.nextProcId, e⟩] ∧
    BatchSpanProcessor.mk g.nextProcId e ∉ (get_instance g).1.instProcessors ∧
    (BatchSpanProcessor.mk g.nextProcId e).exporter = e := by
  refine ⟨rfl, by simp [add_span_exporter], rfl, ?_, rfl⟩
  intro hmem
  exact absurd (hw _ hmem) (lt_irrefl _)

/-- Witness for C6 at the fresh state. -/
theorem add_span_exporter_registers_witness :
    (add_span_exporter g0 ExporterRef.console).instProcessors
      = (get_instance g0).1.instProcessors ++ [⟨g0.nextProcId, ExporterRef.console⟩] :=
  (add_span_exporter_registers g0 ExporterRef.console
    (by intro p hp; simp [get_instance, g0] at hp)).1

/-- C7: close invokes shutdown on every processor in the registry's
processor list, in registration order, skipping none: the shutdown log is
extended by exactly the identity of each registered processor, in list
order. -/
theorem close_shuts_down_every_processor (g : GlobalState) :
    (close g).shutdownLog
      = (get_instance g).1.shutdownLog
        ++ (get_instance g).1.instProcessors.map BatchSpanProcessor.procId := rfl

/-- C8: set_attribute first coerces the value via the attribute coercion
function (which always yields a result) and stores the coerced result
under the given key on the execution context's current span. -/
theorem set_attribute_stores_coerced (g : GlobalState) (k : String) (v : PyVal) :
    ∃ av g2, generate_attribute_value v = Except.ok av ∧
      set_attribute g k v = Except.ok g2 ∧
      lookupAttr g2.currentSpan.attrs k = some av := by
  obtain ⟨av, hav⟩ := gav_isOk v
  have h1 : set_attribute g k v = Except.ok
      { (get_instance (get_instance g).1).1 with
        currentSpan :=
          ⟨setAttrAssoc (get_instance (get_instance g).1).1.currentSpan.attrs k av⟩ } := by
    simp [set_attribute, hav]
  exact ⟨av, _, hav, h1, lookupAttr_setAttrAssoc _ _ _⟩

/-- C9: constructing a FileSpanExporter with a bare file name — no
directory component, so `os.path.dirname` gives the empty string — raises,
because `os.makedirs` is attempted on the empty dirname
(`os.path.exists("")` being false); construction succeeds when the file
name has a parent directory, which is created if absent; and through
add_file_span_exporter the bare-name exception propagates too. -/
theorem init_bare_filename_raises (fs : FileSys) (f : String) :
    (os_path_dirname f = "" →
      FileSpanExporter.init fs f = Except.error PyErr.fileNotFoundError) ∧
    (os_path_dirname f ≠ "" →
      ∃ fs2, FileSpanExporter.init fs f = Except.ok (fs2, ⟨f⟩) ∧
        os_path_exists fs2 (os_path_dirname f) = true) ∧
    (os_path_dirname f = "" → ∀ g,
      add_file_span_exporter g fs f = Except.error PyErr.fileNotFoundError) := by
  have hbare : os_path_dirname f = "" →
      FileSpanExporter.init fs f = Except.error PyErr.fileNotFoundError := by
    intro h
    simp [FileSpanExporter.init, h, os_path_exists, os_makedirs]
  refine ⟨hbare, ?_, ?_⟩
  · intro h
    by_cases he : os_path_exists fs (os_path_dirname f)
    · exact ⟨fs, by simp [FileSpanExporter.init, he], he⟩
    · refine ⟨{ fs with dirs := fun q => if q = os_path_dirname f then true else fs.dirs q },
        ?_, ?_⟩
      · simp [FileSpanExporter.init, he, os_makedirs, h]
      · simp [os_path_exists, h]
  · intro h g
    simp [add_file_span_exporter, hbare h]

/-- Witness for C9: a bare name raises (directly and through
add_file_span_exporter), a name with a parent directory succeeds. -/
theorem init_bare_filename_raises_witness :
    FileSpanExporter.init fsEmpty "trace.jsonl" = Except.error PyErr.fileNotFoundError ∧
    (∃ fs2, FileSpanExporter.init fsEmpty "logs/trace.jsonl"
        = Except.ok (fs2, ⟨"logs/trace.jsonl"⟩) ∧
      os_path_exists fs2 (os_path_dirname "logs/trace.jsonl") = true) ∧
    add_file_span_exporter g0 fsEmpty "trace.jsonl"
      = Except.error PyErr.fileNotFoundError :=
  ⟨(init_bare_filename_raises fsEmpty "trace.jsonl").1 (by decide),
   (init_bare_filename_raises fsEmpty "logs/trace.jsonl").2.1 (by decide),
   (init_bare_filename_raises fsEmpty "trace.jsonl").2.2 (by decide) g0⟩

/-- C10: no registry operation removes a processor: close leaves the
processor list (and the provider's list) unchanged, add_span_exporter only
appends, and a second close invokes shutdown on each registered processor
again — the log gains the full identity list twice. -/
theorem processors_never_removed (g : GlobalState) (e : ExporterRef) :
    (close g).instProcessors = (get_instance g).1.instProcessors ∧
    (close g).providerProcessors = (get_instance g).1.providerProcessors ∧
    (add_span_exporter g e).instProcessors
      = (get_instance g).1.instProcessors ++ [⟨g.nextProcId, e⟩] ∧
    (close (close g)).shutdownLog
      = (get_instance g).1.shutdownLog
        ++ (get_instance g).1.instProcessors.map BatchSpanProcessor.procId
        ++ (get_instance g).1.instProcessors.map BatchSpanProcessor.procId := by
  have h2 : (close g).instId = some (get_instance g).2 := by
    simp [close]
    exact get_instance_instId g
  have h1 : get_instance (close g) = (close g, (get_instance g).2) := by
    simp [get_instance, h2]
  refine ⟨rfl, rfl, rfl, ?_⟩
  have h3 : (close (close g)).shutdownLog
      = (get_instance (close g)).1.shutdownLog
        ++ ((get_instance (close g)).1.instProcessors.map BatchSpanProcessor.procId) := rfl
  rw [h3, h1]
  simp [close]

end OtelTracer
